import Mathlib

/-
Verification of the apify-winners repository's tool-use orchestration loop
and its Gmail-processing helpers.

The development shallowly embeds the Python sources:
  * `bin/scripts/client.py`  — `MCPClient.process_query` (the agent loop),
    `MCPClient.generate_gmail_query` and `MCPClient.generate_phone_call_params`
    (the natural-language-to-structured-query translators);
  * `gmail_processor/main.py` — the Gmail search pagination loop and
    `find_mime_parts`.

External collaborators (the Anthropic model endpoint, the MCP tool server,
the Gmail REST API, `json.loads`) are modelled as explicit oracle parameters:
a model oracle maps a transcript and tool list to either a response or an
exception message (`Except String ModelResponse`), a tool-call oracle maps a
tool name and argument payload to either result content blocks or an
exception message, and the Gmail listing endpoint is modelled as a server
state paged by offset tokens.
-/

/-! ## Data model for the agent loop (client.py) -/

/-- Tool descriptor as returned by `session.list_tools()` (an MCP tool:
name, description, input schema). The schema is kept as an opaque string. -/
structure MCPTool where
  name : String
  description : String
  inputSchema : String
deriving Repr, DecidableEq

/-- Entry of the `anthropic_tools` list built in `process_query`
(lines 80-84 of client.py): the same three fields, with the schema under
the key `input_schema`. -/
structure AnthropicTool where
  name : String
  description : String
  input_schema : String
deriving Repr, DecidableEq

/-- Conversion performed once per `process_query` call (lines 80-84):
each MCP tool becomes an Anthropic tool dict. -/
def toAnthropicTool (t : MCPTool) : AnthropicTool :=
  { name := t.name, description := t.description, input_schema := t.inputSchema }

/-- Modelled from the spec: section 4.2 declares statically declared
local tools (a Gmail-draft creator and an actor-builder) that the Tool
Registry's `list()` merges with the remote catalogue. No such local
tools exist anywhere under the repository's sources — `process_query`
forwards every tool call to the remote session and hands the model only
the remote catalogue — so these descriptors only record the local tools
the spec asserts, for comparison against the code. -/
def local_tools_spec : List AnthropicTool :=
  [⟨"gmail_draft_creator", "create a Gmail draft from recipient, subject and body", "gmail draft schema"⟩,
   ⟨"actor_builder", "build and deploy an actor from a name and source payload", "actor builder schema"⟩]

/-- Content block of a model response: either a text block or a tool-use
block carrying a call identifier, a tool name and an argument payload
(the payload is opaque to the loop, so it is kept as a string). -/
inductive ContentBlock where
  | text (t : String)
  | tool_use (id : String) (name : String) (input : String)
deriving Repr, DecidableEq

/-- A model response: ordered content blocks plus a stop reason. -/
structure ModelResponse where
  content : List ContentBlock
  stop_reason : String
deriving Repr, DecidableEq

/-- One content item of an MCP `call_tool` result (`result.content` in
client.py line 137): a kind tag and a text payload. -/
structure RContent where
  type : String
  text : String
deriving Repr, DecidableEq

/-- One `tool_result` entry appended to `tool_results_content`
(client.py lines 147-151). -/
structure ToolResultEntry where
  tool_use_id : String
  content : String
deriving Repr, DecidableEq

/-- Payload of one transcript message: plain text (user or system turns),
the model's raw content blocks (assistant turns), or a list of tool
results (the tool-result user turn, client.py lines 154-157). -/
inductive MessageContent where
  | text (s : String)
  | blocks (bs : List ContentBlock)
  | tool_results_content (rs : List ToolResultEntry)
deriving Repr, DecidableEq

/-- One entry of the `messages` list of `process_query`. -/
structure Message where
  role : String
  content : MessageContent
deriving Repr, DecidableEq

/-! ## Python string primitives

Python-level string operations used by the sources (`.strip()`,
`.startswith`, `.endswith`, `.split("\n")`, `"\n".join`, `.lower()`,
slicing `[1:-1]`, substring membership) are modelled on the character
list underlying the Lean string, mirroring Python's
sequence-of-characters semantics. -/

/-- Boolean test that `needle` is an initial run of the second list. -/
def charListPrefixOf : List Char → List Char → Bool
  | [], _ => true
  | _ :: _, [] => false
  | a :: as, b :: bs => a == b && charListPrefixOf as bs

/-- True iff `needle` occurs as a contiguous run inside the second list
(Python's `needle in hay`). -/
def charListInfixOf (needle : List Char) : List Char → Bool
  | [] => charListPrefixOf needle []
  | b :: bs => charListPrefixOf needle (b :: bs) || charListInfixOf needle bs

/-- ASCII whitespace recognised by Python's `str.strip()`. -/
def pyIsSpace (c : Char) : Bool :=
  c == ' ' || c == '\t' || c == '\n' || c == '\r' || c == '\x0b' || c == '\x0c'

/-- Python `s.strip()`: drop leading and trailing whitespace. -/
def pyStrip (s : String) : String :=
  ⟨((s.data.dropWhile pyIsSpace).reverse.dropWhile pyIsSpace).reverse⟩

/-- Python `s.startswith(pre)`. -/
def pyStartsWith (s pre : String) : Bool :=
  charListPrefixOf pre.data s.data

/-- Python `s.endswith(suf)`. -/
def pyEndsWith (s suf : String) : Bool :=
  charListPrefixOf suf.data.reverse s.data.reverse

/-- Python `s.split(sep)` for a single-character separator, on character
lists: `"".split` gives one empty field, and every separator occurrence
opens a new field. -/
def pySplitOnChar (sep : Char) : List Char → List (List Char)
  | [] => [[]]
  | c :: cs =>
    let r := pySplitOnChar sep cs
    if c == sep then [] :: r
    else
      match r with
      | [] => [[c]]
      | h :: t => (c :: h) :: t

/-- Python `s.split("\n")`. -/
def pySplitLines (s : String) : List String :=
  (pySplitOnChar '\n' s.data).map fun l => ⟨l⟩

/-- Python `sep.join(parts)`. -/
def pyJoin (sep : String) (parts : List String) : String :=
  ⟨List.intercalate sep.data (parts.map String.data)⟩

/-- Python `s[1:-1]`. -/
def pySliceOneToLast (s : String) : String :=
  ⟨(s.data.drop 1).dropLast⟩

/-- ASCII case folding of one character (the sources only compare ASCII
keywords, for which Python's `str.lower()` agrees with this). -/
def pyLowerChar (c : Char) : Char :=
  if 65 ≤ c.toNat && c.toNat ≤ 90 then Char.ofNat (c.toNat + 32) else c

/-- Python `s.lower()` on ASCII text. -/
def pyLower (s : String) : String :=
  ⟨s.data.map pyLowerChar⟩

/-! ## Embedding of MCPClient.process_query -/

/-- Keyword list from client.py line 56 (the duplicated `'inbox'` of the
source is kept). -/
def gmail_keywords : List String :=
  ["email", "gmail", "inbox", "message", "mail", "inbox", "attachment", "pdf", "invoice"]

/-- Embeds `any(keyword in query.lower() for keyword in gmail_keywords)`
(client.py line 57). -/
def is_gmail_query (query : String) : Bool :=
  gmail_keywords.any fun k => charListInfixOf k.data (pyLower query).data

/-- The system context string of client.py lines 61-73. -/
def system_context : String :=
  "You can help users search Gmail by generating Gmail search queries. \nIf the user wants to search Gmail, you should:\n1. Generate an appropriate Gmail search query using Gmail search syntax\n2. Mention that the query can be executed using the Gmail processor\n\nGmail search syntax examples:\n- subject:\"text\" - search in subject\n- from:email@example.com - search by sender\n- has:attachment - emails with attachments\n- after:YYYY/MM/DD - emails after date\n- before:YYYY/MM/DD - emails before date\n- is:unread - unread emails\n- Combine with spaces: subject:invoice after:2024/01/01"

/-- Initial `messages` list built at the top of `process_query`
(client.py lines 60-76): a fresh list containing only the optional system
context turn and the new user query. -/
def initial_messages (query : String) : List Message :=
  if is_gmail_query query then
    [⟨"system", .text system_context⟩, ⟨"user", .text query⟩]
  else
    [⟨"user", .text query⟩]

/-- The loop budget of client.py line 91. -/
def MAX_TURNS : Nat := 15

/-- Embeds the per-tool try/except body of client.py lines 131-144:
forward the call to the MCP session; on success join the text content
blocks with newlines, substituting the fixed placeholder when the joined
text is empty; on an exception produce the error text. -/
def execute_tool (call_tool : String → String → Except String (List RContent))
    (name : String) (input : String) : String :=
  match call_tool name input with
  | .ok result_content =>
    let tool_output :=
      pyJoin "\n" ((result_content.filter fun c => c.type == "text").map fun c => c.text)
    if tool_output = "" then "Tool executed successfully (no text output)." else tool_output
  | .error e => "Error executing tool: " ++ e

/-- Embeds the for-loop of client.py lines 122-151: one `tool_result`
entry per `tool_use` block of the assistant content, in block order,
carrying that block's call identifier. -/
def tool_results_for (call_tool : String → String → Except String (List RContent))
    (content : List ContentBlock) : List ToolResultEntry :=
  content.filterMap fun b =>
    match b with
    | .tool_use id name input => some ⟨id, execute_tool call_tool name input⟩
    | .text _ => none

/-- Call identifiers of the `tool_use` blocks of an assistant content
list, in block order. -/
def tool_use_ids (content : List ContentBlock) : List String :=
  content.filterMap fun b =>
    match b with
    | .tool_use id _ _ => some id
    | .text _ => none

/-- Embeds the final-text extraction of client.py lines 111-115. -/
def extract_final_text (content : List ContentBlock) : String :=
  pyJoin "\n" (content.filterMap fun b =>
    match b with
    | .text t => some t
    | .tool_use _ _ _ => none)

/-- One model call as issued by the loop: the transcript and the tool
list passed to `anthropic_client.messages.create` (client.py lines 96-101). -/
structure ModelCall where
  messages : List Message
  tools : List AnthropicTool
deriving Repr, DecidableEq

/-- Observable outcome of the loop: the returned string, the final state
of the `messages` list, and the trace of model calls issued. -/
structure LoopTrace where
  result : String
  transcript : List Message
  modelCalls : List ModelCall
deriving Repr, DecidableEq

/-- Embeds the `for turn in range(MAX_TURNS)` loop of client.py
lines 93-161, with the remaining iteration count as fuel. Each iteration:
call the model (an API exception returns an error string, line 103);
append the assistant turn; on a non-tool_use stop reason return the
joined text blocks; otherwise append one user turn carrying all tool
results of the cycle and continue. Exhausted fuel returns the sentinel
of line 161. -/
def tool_use_loop (model : List Message → List AnthropicTool → Except String ModelResponse)
    (call_tool : String → String → Except String (List RContent))
    (anthropic_tools : List AnthropicTool) : Nat → List Message → LoopTrace
  | 0, messages => ⟨"Error: Maximum tool turns reached.", messages, []⟩
  | fuel + 1, messages =>
    match model messages anthropic_tools with
    | .error e => ⟨"Error calling Claude API: " ++ e, messages, [⟨messages, anthropic_tools⟩]⟩
    | .ok response =>
      let messages1 := messages ++ [⟨"assistant", .blocks response.content⟩]
      if response.stop_reason ≠ "tool_use" then
        ⟨extract_final_text response.content, messages1, [⟨messages, anthropic_tools⟩]⟩
      else
        let results := tool_results_for call_tool response.content
        let messages2 := messages1 ++ [⟨"user", .tool_results_content results⟩]
        let t := tool_use_loop model call_tool anthropic_tools fuel messages2
        ⟨t.result, t.transcript, ⟨messages, anthropic_tools⟩ :: t.modelCalls⟩

/-- Observable outcome of one `process_query` call, additionally
recording how many times `session.list_tools()` was invoked during the
call (the source invokes it exactly once, at line 79, before the loop). -/
structure ProcessTrace where
  result : String
  transcript : List Message
  modelCalls : List ModelCall
  list_tools_calls : Nat
deriving Repr, DecidableEq

/-- Embeds `MCPClient.process_query` (client.py lines 54-161).
`list_tools` is the remote catalogue the session would return at the
single point the source fetches it. -/
def process_query (list_tools : List MCPTool)
    (model : List Message → List AnthropicTool → Except String ModelResponse)
    (call_tool : String → String → Except String (List RContent))
    (query : String) : ProcessTrace :=
  let anthropic_tools := list_tools.map toAnthropicTool
  let t := tool_use_loop model call_tool anthropic_tools MAX_TURNS (initial_messages query)
  ⟨t.result, t.transcript, t.modelCalls, 1⟩

/-! ## Embedding of the translators (client.py lines 163-215 and 273-323) -/

/-- Embeds the per-block post-processing of `generate_gmail_query`
(client.py lines 199-211): trim, drop every line that starts with
a triple-backtick fence when the trimmed text starts with one, then strip
one pair of surrounding double or single quotes. -/
def strip_gmail_query_text (raw : String) : String :=
  let query := pyStrip raw
  let query :=
    if pyStartsWith query "```" then
      pyStrip (pyJoin "\n"
        ((pySplitLines query).filter fun l => !(pyStartsWith (pyStrip l) "```")))
    else query
  if pyStartsWith query "\"" && pyEndsWith query "\"" then
    pySliceOneToLast query
  else if pyStartsWith query "\x27" && pyEndsWith query "\x27" then
    pySliceOneToLast query
  else query

/-- Embeds the extraction loop of `generate_gmail_query` (client.py
lines 198-213): `query` starts empty, the first text block is processed
and the loop breaks. -/
def generate_gmail_query_result (content : List ContentBlock) : String :=
  match content.find? fun b => match b with | .text _ => true | .tool_use _ _ _ => false with
  | some (.text t) => strip_gmail_query_text t
  | _ => ""

/-- Embeds the per-block post-processing of `generate_phone_call_params`
(client.py lines 304-314): same fence handling, but only double quotes
are stripped (the source has no single-quote case here). -/
def strip_phone_json_text (raw : String) : String :=
  let json_str := pyStrip raw
  let json_str :=
    if pyStartsWith json_str "```" then
      pyStrip (pyJoin "\n"
        ((pySplitLines json_str).filter fun l => !(pyStartsWith (pyStrip l) "```")))
    else json_str
  if pyStartsWith json_str "\"" && pyEndsWith json_str "\"" then
    pySliceOneToLast json_str
  else json_str

/-- The extracted-and-stripped text of `generate_phone_call_params`
(client.py lines 303-314): first text block, stripped; empty when there
is no text block. -/
def generate_phone_call_params_text (content : List ContentBlock) : String :=
  match content.find? fun b => match b with | .text _ => true | .tool_use _ _ _ => false with
  | some (.text t) => strip_phone_json_text t
  | _ => ""

/-- Return value of `generate_phone_call_params`: either the parsed
parameter object, or the error dict `{"error": ..., "raw": ...}` of
client.py line 321 carrying the offending raw text. -/
inductive PhoneCallParamsResult (α : Type) where
  | params (p : α)
  | error_result (error : String) (raw : String)
deriving Repr, DecidableEq

/-- Embeds `generate_phone_call_params` (client.py lines 302-321) after
the model call: extract and strip the text, then parse it. `json_loads`
is the oracle for Python's `json.loads`, returning the decode-error
message on failure; a failure is converted into the structured error
object, never raised onward. -/
def generate_phone_call_params (json_loads : String → Except String α)
    (content : List ContentBlock) : PhoneCallParamsResult α :=
  let json_str := generate_phone_call_params_text content
  match json_loads json_str with
  | .ok params => .params params
  | .error e => .error_result ("Invalid JSON response: " ++ e) json_str

/-! ## Embedding of the Gmail search pagination (gmail_processor/main.py lines 176-202) -/

/-- The Gmail listing endpoint, modelled as the full match list in the
order the API yields it (newest first) together with a per-page
allotment: a page request for `maxResults` messages starting at offset
`offset` returns the next `min maxResults page_cap` matches and a next
page token iff matches remain. -/
structure GmailServer where
  msgs : List String
  page_cap : Nat
deriving Repr, DecidableEq

/-- One `users().messages().list(...)` page: the returned message ids and
the optional `nextPageToken` (modelled as the next offset). -/
def gmail_list_page (s : GmailServer) (offset : Nat) (maxResults : Nat) :
    List String × Option Nat :=
  let page := (s.msgs.drop offset).take (min maxResults s.page_cap)
  let next := offset + page.length
  (page, if next < s.msgs.length then some next else none)

/-- Embeds the pagination `while` loop of gmail_processor/main.py
lines 177-199: accumulate pages of at most `min 500 (max_results - len)`
messages until the cap is reached or the server reports no next page.
The fuel argument bounds the iteration count; `max_results` iterations
suffice because every page of a server with a positive page allotment is
non-empty while messages remain. -/
def gmail_search_go (s : GmailServer) (max_results : Nat) :
    Nat → List String → Nat → List String
  | 0, all_messages, _ => all_messages
  | fuel + 1, all_messages, offset =>
    if all_messages.length < max_results then
      let req := min 500 (max_results - all_messages.length)
      let (page_messages, page_token) := gmail_list_page s offset req
      let all2 := all_messages ++ page_messages
      match page_token with
      | none => all2
      | some next =>
        if max_results ≤ all2.length then all2
        else gmail_search_go s max_results fuel all2 next
    else all_messages

/-- Embeds lines 177-202 of gmail_processor/main.py: run the pagination
loop with `max_results = 100` in the source (kept as a parameter here)
and keep the first `max_results` accumulated ids
(`messages = all_messages[:max_results]`, line 202). -/
def gmail_search_messages (s : GmailServer) (max_results : Nat) : List String :=
  (gmail_search_go s max_results max_results [] 0).take max_results

/-- The cap used by the source (gmail_processor/main.py line 179). -/
def gmail_max_results : Nat := 100

/-! ## Embedding of find_mime_parts (gmail_processor/main.py lines 56-73) -/

/-- The `body` sub-dict of a message part; only `attachmentId` is read. -/
structure PartBody where
  attachmentId : Option String
deriving Repr, DecidableEq

/-- A Gmail message part: optional `mimeType`, optional `body`, and the
nested `parts` list (an absent `parts` key is modelled as the empty
list, over which the source's recursion returns nothing as well). -/
inductive MsgPart where
  | mk (mimeType : Option String) (body : Option PartBody) (parts : List MsgPart)

/-- The `mimeType` field of a part. -/
def MsgPart.mimeType : MsgPart → Option String
  | .mk m _ _ => m

/-- The `body` field of a part. -/
def MsgPart.body : MsgPart → Option PartBody
  | .mk _ b _ => b

/-- The nested `parts` list of a part. -/
def MsgPart.parts : MsgPart → List MsgPart
  | .mk _ _ ps => ps

/-- Embeds the filter condition of gmail_processor/main.py line 65:
`part.get('mimeType') in target_mimes and part.get('body', {}).get('attachmentId')`.
Python truthiness makes an absent or empty attachment id fail the test. -/
def part_matches (part : MsgPart) (target_mimes : List String) : Bool :=
  (match part.mimeType with
   | some m => target_mimes.contains m
   | none => false)
  &&
  (match part.body with
   | some b =>
     (match b.attachmentId with
      | some att => att != ""
      | none => false)
   | none => false)

/-- Embeds `find_mime_parts` (gmail_processor/main.py lines 56-73):
collect each part that passes the filter, then the matches found in its
nested parts, then continue with the remaining siblings. -/
def find_mime_parts : List MsgPart → List String → List MsgPart
  | [], _ => []
  | MsgPart.mk m b children :: rest, target_mimes =>
    (if part_matches (.mk m b children) target_mimes then [MsgPart.mk m b children] else [])
      ++ find_mime_parts children target_mimes
      ++ find_mime_parts rest target_mimes

/-! ## Helper lemmas about the tool-dispatch cycle -/

/-- The tool results of a cycle carry exactly the call identifiers of the
`tool_use` blocks, in block order. -/
theorem tool_results_for_ids (call_tool : String → String → Except String (List RContent))
    (content : List ContentBlock) :
    (tool_results_for call_tool content).map ToolResultEntry.tool_use_id
      = tool_use_ids content := by
  induction content with
  | nil => rfl
  | cons b rest ih =>
    cases b with
    | text t => simpa [tool_results_for, tool_use_ids] using ih
    | tool_use id name input => simpa [tool_results_for, tool_use_ids] using ih

/-- Every `tool_use` block of a cycle gets its executed result into the
cycle's result list. -/
theorem tool_results_for_complete (call_tool : String → String → Except String (List RContent))
    (content : List ContentBlock) (id name input : String)
    (h : ContentBlock.tool_use id name input ∈ content) :
    (⟨id, execute_tool call_tool name input⟩ : ToolResultEntry)
      ∈ tool_results_for call_tool content :=
  List.mem_filterMap.mpr ⟨ContentBlock.tool_use id name input, h, rfl⟩

/-- The loop issues at most `fuel` model calls. -/
theorem tool_use_loop_modelCalls_length_le
    (model : List Message → List AnthropicTool → Except String ModelResponse)
    (call_tool : String → String → Except String (List RContent))
    (tools : List AnthropicTool) :
    ∀ fuel messages,
      (tool_use_loop model call_tool tools fuel messages).modelCalls.length ≤ fuel := by
  intro fuel
  induction fuel with
  | zero => intro messages; simp [tool_use_loop]
  | succ n ih =>
    intro messages
    simp only [tool_use_loop]
    cases h : model messages tools with
    | error e => simp
    | ok response =>
      by_cases hs : response.stop_reason ≠ "tool_use"
      · simp [hs]
      · simp only [hs, if_neg, ite_false, not_true_eq_false]
        exact Nat.succ_le_succ (ih _)

/-- When the model answers every call with a `tool_use` stop reason, the
loop ends in the sentinel failure string for any fuel. -/
theorem tool_use_loop_all_tool_use_sentinel
    (model : List Message → List AnthropicTool → Except String ModelResponse)
    (call_tool : String → String → Except String (List RContent))
    (tools : List AnthropicTool)
    (h : ∀ ms ts, ∃ r, model ms ts = Except.ok r ∧ r.stop_reason = "tool_use") :
    ∀ fuel messages,
      (tool_use_loop model call_tool tools fuel messages).result
        = "Error: Maximum tool turns reached." := by
  intro fuel
  induction fuel with
  | zero => intro messages; rfl
  | succ n ih =>
    intro messages
    obtain ⟨r, hr, hs⟩ := h messages tools
    simp only [tool_use_loop, hr, hs]
    simpa using ih _

/-! ## Claim theorems -/

/-- C2: for every input query, `process_query` performs at most 15
model-call cycles (the `MAX_TURNS` budget of client.py line 91) and is a
total function into strings; when no cycle ends with a stop reason other
than `"tool_use"`, it returns the fixed sentinel failure string
`"Error: Maximum tool turns reached."` (client.py line 161) instead of
raising or looping unboundedly. -/
theorem process_query_turn_budget
    (list_tools : List MCPTool)
    (model : List Message → List AnthropicTool → Except String ModelResponse)
    (call_tool : String → String → Except String (List RContent))
    (query : String) :
    (process_query list_tools model call_tool query).modelCalls.length ≤ 15 ∧
    ((∀ ms ts, ∃ r, model ms ts = Except.ok r ∧ r.stop_reason = "tool_use") →
      (process_query list_tools model call_tool query).result
        = "Error: Maximum tool turns reached.") := by
  constructor
  · exact tool_use_loop_modelCalls_length_le model call_tool _ MAX_TURNS _
  · intro h
    exact tool_use_loop_all_tool_use_sentinel model call_tool _ h MAX_TURNS _

/-- Witness for C2 at a concrete model that always requests tools. -/
theorem process_query_turn_budget_witness :
    (process_query []
      (fun _ _ => Except.ok ⟨[ContentBlock.tool_use "i" "t" "a"], "tool_use"⟩)
      (fun _ _ => Except.ok []) "x").modelCalls.length ≤ 15 ∧
    (process_query []
      (fun _ _ => Except.ok ⟨[ContentBlock.tool_use "i" "t" "a"], "tool_use"⟩)
      (fun _ _ => Except.ok []) "x").result = "Error: Maximum tool turns reached." :=
  ⟨(process_query_turn_budget [] _ _ "x").1,
   (process_query_turn_budget []
      (fun _ _ => Except.ok ⟨[ContentBlock.tool_use "i" "t" "a"], "tool_use"⟩)
      (fun _ _ => Except.ok []) "x").2 (fun _ _ => ⟨_, rfl, rfl⟩)⟩

/-- C3: a tool whose execution raises is caught and converted into an
error-text result for that specific call identifier (client.py
lines 142-144), and every other tool call of the same cycle is still
executed and its result still appended: the result list answers every
requested identifier, in the original block order. -/
theorem tool_failure_isolation
    (call_tool : String → String → Except String (List RContent))
    (content : List ContentBlock) (id name input e : String)
    (hmem : ContentBlock.tool_use id name input ∈ content)
    (herr : call_tool name input = Except.error e) :
    (⟨id, "Error executing tool: " ++ e⟩ : ToolResultEntry)
      ∈ tool_results_for call_tool content ∧
    (tool_results_for call_tool content).map ToolResultEntry.tool_use_id
      = tool_use_ids content ∧
    (∀ id2 n2 i2, ContentBlock.tool_use id2 n2 i2 ∈ content →
      (⟨id2, execute_tool call_tool n2 i2⟩ : ToolResultEntry)
        ∈ tool_results_for call_tool content) := by
  refine ⟨?_, tool_results_for_ids call_tool content,
    fun id2 n2 i2 h2 => tool_results_for_complete call_tool content id2 n2 i2 h2⟩
  have hx : execute_tool call_tool name input = "Error executing tool: " ++ e := by
    simp [execute_tool, herr]
  exact hx ▸ tool_results_for_complete call_tool content id name input hmem

/-- Witness for C3: a cycle with one failing and one succeeding tool. -/
theorem tool_failure_isolation_witness :
    (⟨"1", "Error executing tool: " ++ "boom"⟩ : ToolResultEntry)
      ∈ tool_results_for
          (fun n _ => if n == "bad" then Except.error "boom"
                      else Except.ok [⟨"text", "fine"⟩])
          [ContentBlock.tool_use "1" "bad" "x", ContentBlock.tool_use "2" "good" "y"] ∧
    (tool_results_for
          (fun n _ => if n == "bad" then Except.error "boom"
                      else Except.ok [⟨"text", "fine"⟩])
          [ContentBlock.tool_use "1" "bad" "x", ContentBlock.tool_use "2" "good" "y"]).map
        ToolResultEntry.tool_use_id
      = tool_use_ids [ContentBlock.tool_use "1" "bad" "x", ContentBlock.tool_use "2" "good" "y"] ∧
    (∀ id2 n2 i2,
      ContentBlock.tool_use id2 n2 i2
        ∈ [ContentBlock.tool_use "1" "bad" "x", ContentBlock.tool_use "2" "good" "y"] →
      (⟨id2, execute_tool
          (fun n _ => if n == "bad" then Except.error "boom"
                      else Except.ok [⟨"text", "fine"⟩]) n2 i2⟩ : ToolResultEntry)
        ∈ tool_results_for
            (fun n _ => if n == "bad" then Except.error "boom"
                        else Except.ok [⟨"text", "fine"⟩])
            [ContentBlock.tool_use "1" "bad" "x", ContentBlock.tool_use "2" "good" "y"]) :=
  tool_failure_isolation _ _ "1" "bad" "x" "boom" (by decide) rfl

/-- C7: for every remote tool call that completes without exception, the
dispatched result text is the newline-join of the text content blocks of
the remote response, with the fixed placeholder substituted when that
flattened content is empty (client.py lines 136-140); the dispatched
text is never the empty string. -/
theorem remote_tool_result_flattening
    (call_tool : String → String → Except String (List RContent))
    (content : List ContentBlock) (id name input : String) (blocks : List RContent)
    (hmem : ContentBlock.tool_use id name input ∈ content)
    (hok : call_tool name input = Except.ok blocks) :
    (⟨id, execute_tool call_tool name input⟩ : ToolResultEntry)
      ∈ tool_results_for call_tool content ∧
    execute_tool call_tool name input =
      (if pyJoin "\n" ((blocks.filter fun c => c.type == "text").map fun c => c.text) = ""
       then "Tool executed successfully (no text output)."
       else pyJoin "\n" ((blocks.filter fun c => c.type == "text").map fun c => c.text)) ∧
    execute_tool call_tool name input ≠ "" := by
  have h2 : execute_tool call_tool name input =
      (if pyJoin "\n" ((blocks.filter fun c => c.type == "text").map fun c => c.text) = ""
       then "Tool executed successfully (no text output)."
       else pyJoin "\n" ((blocks.filter fun c => c.type == "text").map fun c => c.text)) := by
    simp [execute_tool, hok]
  refine ⟨tool_results_for_complete call_tool content id name input hmem, h2, ?_⟩
  rw [h2]
  split
  · decide
  · assumption

/-- Witness for C7: a remote call succeeding with empty content gets the
placeholder, and the result reaches the cycle's result list. -/
theorem remote_tool_result_flattening_witness :
    (⟨"1", execute_tool (fun _ _ => Except.ok []) "t" "a"⟩ : ToolResultEntry)
      ∈ tool_results_for (fun _ _ => Except.ok []) [ContentBlock.tool_use "1" "t" "a"] ∧
    execute_tool (fun _ _ => Except.ok []) "t" "a" =
      (if pyJoin "\n" ((([] : List RContent).filter fun c => c.type == "text").map fun c => c.text) = ""
       then "Tool executed successfully (no text output)."
       else pyJoin "\n" ((([] : List RContent).filter fun c => c.type == "text").map fun c => c.text)) ∧
    execute_tool (fun _ _ => Except.ok []) "t" "a" ≠ "" :=
  remote_tool_result_flattening _ _ "1" "t" "a" [] (by decide) rfl

/-- C6 (code bug): on the spec's own example — a model response whose
single line is the query wrapped in triple-backtick fencing — the
translate step of `generate_gmail_query` does not return the unwrapped
payload `subject:invoice after:2024/01/01`: the fence-stripping filter
of client.py lines 203-205 drops every line that starts with a fence,
including the single line that carries the whole payload, so the
function returns the empty string. -/
theorem generate_gmail_query_single_line_fence :
    generate_gmail_query_result
        [ContentBlock.text "```subject:invoice after:2024/01/01```"] = "" ∧
    generate_gmail_query_result
        [ContentBlock.text "```subject:invoice after:2024/01/01```"]
      ≠ "subject:invoice after:2024/01/01" := by
  decide

/-- C8: when the extracted and stripped text of the model response fails
to parse, `generate_phone_call_params` returns the structured error
object of client.py line 321 carrying the offending raw text; it is a
returned value, never a raised exception, and it is never the parsed
parameter object. -/
theorem generate_phone_call_params_parse_error {α : Type}
    (json_loads : String → Except String α) (content : List ContentBlock) (e : String)
    (h : json_loads (generate_phone_call_params_text content) = Except.error e) :
    generate_phone_call_params json_loads content =
      PhoneCallParamsResult.error_result ("Invalid JSON response: " ++ e)
        (generate_phone_call_params_text content) ∧
    ∀ p, generate_phone_call_params json_loads content ≠ PhoneCallParamsResult.params p := by
  constructor
  · simp [generate_phone_call_params, h]
  · intro p hc
    simp [generate_phone_call_params, h] at hc

/-- Witness for C8 at a concrete unparsable model response. -/
theorem generate_phone_call_params_parse_error_witness :
    generate_phone_call_params (α := Unit) (fun _ => Except.error "Expecting value")
        [ContentBlock.text "I cannot produce JSON"] =
      PhoneCallParamsResult.error_result ("Invalid JSON response: " ++ "Expecting value")
        (generate_phone_call_params_text [ContentBlock.text "I cannot produce JSON"]) ∧
    ∀ p, generate_phone_call_params (α := Unit) (fun _ => Except.error "Expecting value")
        [ContentBlock.text "I cannot produce JSON"] ≠ PhoneCallParamsResult.params p :=
  generate_phone_call_params_parse_error (fun _ => Except.error "Expecting value")
    [ContentBlock.text "I cannot produce JSON"] "Expecting value" rfl

/-- Lookup in a list extended with two elements, by index cases. -/
theorem getElem?_append_pair {α : Type} (l : List α) (a u : α) (j : Nat) :
    (l ++ [a, u])[j]? =
      if j < l.length then l[j]?
      else if j = l.length then some a
      else if j = l.length + 1 then some u
      else none := by
  rcases Nat.lt_or_ge j l.length with h | h
  · rw [List.getElem?_append_left h, if_pos h]
  · rw [List.getElem?_append_right h, if_neg (by omega)]
    by_cases h1 : j = l.length
    · rw [if_pos h1]
      have he : j - l.length = 0 := by omega
      rw [he]
      rfl
    · rw [if_neg h1]
      by_cases h2 : j = l.length + 1
      · rw [if_pos h2]
        have he : j - l.length = 1 := by omega
        rw [he]
        rfl
      · rw [if_neg h2]
        obtain ⟨k, hk⟩ : ∃ k, j - l.length = k + 2 := ⟨j - l.length - 2, by omega⟩
        rw [hk]
        rfl

/-- Helper: an intermediate transcript in which every assistant turn is
already answered by the matching tool-result turn keeps that property,
weakened to allow the final assistant turn, in the loop's final
transcript. -/
theorem tool_use_loop_pairing
    (model : List Message → List AnthropicTool → Except String ModelResponse)
    (call_tool : String → String → Except String (List RContent))
    (tools : List AnthropicTool) :
    ∀ fuel messages,
      (∀ i bs, messages[i]? = some ⟨"assistant", MessageContent.blocks bs⟩ →
        messages[i+1]? =
          some ⟨"user", MessageContent.tool_results_content (tool_results_for call_tool bs)⟩) →
      ∀ i bs,
        (tool_use_loop model call_tool tools fuel messages).transcript[i]? =
          some ⟨"assistant", MessageContent.blocks bs⟩ →
        (i + 1 = (tool_use_loop model call_tool tools fuel messages).transcript.length ∨
         (tool_use_loop model call_tool tools fuel messages).transcript[i+1]? =
           some ⟨"user", MessageContent.tool_results_content (tool_results_for call_tool bs)⟩) := by
  intro fuel
  induction fuel with
  | zero =>
    intro messages hmid i bs h
    exact Or.inr (hmid i bs h)
  | succ n ih =>
    intro messages hmid i bs h
    rw [tool_use_loop] at h ⊢
    cases hm : model messages tools with
    | error e =>
      rw [hm] at h
      dsimp only at h ⊢
      exact Or.inr (hmid i bs h)
    | ok response =>
      rw [hm] at h
      dsimp only at h ⊢
      by_cases hs : response.stop_reason ≠ "tool_use"
      · rw [if_pos hs] at h ⊢
        dsimp only at h ⊢
        rcases Nat.lt_or_ge i messages.length with hi | hi
        · rw [List.getElem?_append_left hi] at h
          have h2 := hmid i bs h
          have hlt : i + 1 < messages.length := (List.getElem?_eq_some.mp h2).1
          exact Or.inr (by rw [List.getElem?_append_left hlt]; exact h2)
        · rw [List.getElem?_append_right hi] at h
          have h0 : i - messages.length = 0 := by
            by_contra hne
            rcases Nat.exists_eq_succ_of_ne_zero hne with ⟨k, hk⟩
            rw [hk] at h
            simp at h
          rw [h0] at h
          simp only [List.getElem?_cons_zero, Option.some.injEq] at h
          have hie : i = messages.length := by omega
          left
          simp [hie]
      · rw [if_neg hs] at h ⊢
        dsimp only at h ⊢
        refine ih _ ?_ i bs h
        intro j cs hj
        have hassoc : messages ++
            [(⟨"assistant", MessageContent.blocks response.content⟩ : Message)] ++
            [(⟨"user", MessageContent.tool_results_content
                (tool_results_for call_tool response.content)⟩ : Message)]
            = messages ++
            [(⟨"assistant", MessageContent.blocks response.content⟩ : Message),
             (⟨"user", MessageContent.tool_results_content
                (tool_results_for call_tool response.content)⟩ : Message)] := by
          simp
        rw [hassoc] at hj ⊢
        rw [getElem?_append_pair] at hj
        split_ifs at hj with h1 h2 h3
        · have h2 := hmid j cs hj
          have hlt : j + 1 < messages.length := (List.getElem?_eq_some.mp h2).1
          rw [getElem?_append_pair, if_pos hlt]
          exact h2
        · simp only [Option.some.injEq, Message.mk.injEq, MessageContent.blocks.injEq] at hj
          have hcs : cs = response.content := hj.2.symm
          rw [getElem?_append_pair, if_neg (by omega), if_neg (by omega), if_pos (by omega)]
          rw [hcs]
        all_goals simp at hj

/-- The fresh transcript of a `process_query` call contains no assistant
turn before the loop runs. -/
theorem initial_messages_no_assistant (q : String) (i : Nat) (bs : List ContentBlock) :
    (initial_messages q)[i]? ≠ some (Message.mk "assistant" (MessageContent.blocks bs)) := by
  unfold initial_messages
  split
  · rcases i with _ | _ | n <;> simp
  · rcases i with _ | n <;> simp

/-- C1: in every execution of the agent loop, every assistant turn of the
final transcript is either the final turn (the non-tool_use terminal
response) or is immediately followed by exactly one tool-result turn
containing exactly one result per `tool_use` block of that assistant
turn, matched 1:1 by call identifier in the original block order
(client.py lines 119-157). -/
theorem process_query_tool_result_pairing
    (list_tools : List MCPTool)
    (model : List Message → List AnthropicTool → Except String ModelResponse)
    (call_tool : String → String → Except String (List RContent))
    (query : String) (i : Nat) (bs : List ContentBlock)
    (h : (process_query list_tools model call_tool query).transcript[i]? =
      some (Message.mk "assistant" (MessageContent.blocks bs))) :
    (i + 1 = (process_query list_tools model call_tool query).transcript.length ∨
     (process_query list_tools model call_tool query).transcript[i+1]? =
       some (Message.mk "user"
         (MessageContent.tool_results_content (tool_results_for call_tool bs)))) ∧
    (tool_results_for call_tool bs).map ToolResultEntry.tool_use_id = tool_use_ids bs := by
  constructor
  · exact tool_use_loop_pairing model call_tool (list_tools.map toAnthropicTool) MAX_TURNS
      (initial_messages query)
      (fun j cs hj => absurd hj (initial_messages_no_assistant query j cs)) i bs h
  · exact tool_results_for_ids call_tool bs

/-- Witness for C1 at a concrete two-cycle run. -/
theorem process_query_tool_result_pairing_witness :
    (1 + 1 = (process_query [⟨"search", "d", "s"⟩]
        (fun ms _ => if ms.length ≤ 1
          then Except.ok ⟨[ContentBlock.text "thinking",
            ContentBlock.tool_use "id1" "search" "argz"], "tool_use"⟩
          else Except.ok ⟨[ContentBlock.text "done"], "end_turn"⟩)
        (fun n _ => if n == "search" then Except.ok [⟨"text", "resultA"⟩]
          else Except.error "no such tool") "hello").transcript.length ∨
     (process_query [⟨"search", "d", "s"⟩]
        (fun ms _ => if ms.length ≤ 1
          then Except.ok ⟨[ContentBlock.text "thinking",
            ContentBlock.tool_use "id1" "search" "argz"], "tool_use"⟩
          else Except.ok ⟨[ContentBlock.text "done"], "end_turn"⟩)
        (fun n _ => if n == "search" then Except.ok [⟨"text", "resultA"⟩]
          else Except.error "no such tool") "hello").transcript[1+1]? =
       some (Message.mk "user"
         (MessageContent.tool_results_content (tool_results_for
           (fun n _ => if n == "search" then Except.ok [⟨"text", "resultA"⟩]
             else Except.error "no such tool")
           [ContentBlock.text "thinking", ContentBlock.tool_use "id1" "search" "argz"])))) ∧
    (tool_results_for
        (fun n _ => if n == "search" then Except.ok [⟨"text", "resultA"⟩]
          else Except.error "no such tool")
        [ContentBlock.text "thinking", ContentBlock.tool_use "id1" "search" "argz"]).map
      ToolResultEntry.tool_use_id =
      tool_use_ids [ContentBlock.text "thinking", ContentBlock.tool_use "id1" "search" "argz"] :=
  process_query_tool_result_pairing [⟨"search", "d", "s"⟩]
    (fun ms _ => if ms.length ≤ 1
      then Except.ok ⟨[ContentBlock.text "thinking",
        ContentBlock.tool_use "id1" "search" "argz"], "tool_use"⟩
      else Except.ok ⟨[ContentBlock.text "done"], "end_turn"⟩)
    (fun n _ => if n == "search" then Except.ok [⟨"text", "resultA"⟩]
      else Except.error "no such tool") "hello" 1
    [ContentBlock.text "thinking", ContentBlock.tool_use "id1" "search" "argz"]
    (by decide)

/-- Every model call of the loop is issued with the tool list fixed
before the loop started: no cycle re-fetches or changes it. -/
theorem tool_use_loop_tools_fixed
    (model : List Message → List AnthropicTool → Except String ModelResponse)
    (call_tool : String → String → Except String (List RContent))
    (tools : List AnthropicTool) :
    ∀ fuel messages c,
      c ∈ (tool_use_loop model call_tool tools fuel messages).modelCalls →
      c.tools = tools := by
  intro fuel
  induction fuel with
  | zero =>
    intro messages c hc
    simp [tool_use_loop] at hc
  | succ n ih =>
    intro messages c hc
    rw [tool_use_loop] at hc
    cases hm : model messages tools with
    | error e =>
      rw [hm] at hc
      dsimp only at hc
      simp at hc
      rw [hc]
    | ok response =>
      rw [hm] at hc
      dsimp only at hc
      by_cases hs : response.stop_reason ≠ "tool_use"
      · rw [if_pos hs] at hc
        simp at hc
        rw [hc]
      · rw [if_neg hs] at hc
        dsimp only at hc
        rcases List.mem_cons.mp hc with hc1 | hc2
        · rw [hc1]
        · exact ih _ c hc2

/-- C4 (amended): the tool list handed to the model is assembled exactly
once per `process_query` call — `session.list_tools()` is invoked once,
before the loop (client.py line 79), and every model call of every cycle
receives that same converted remote catalogue. No statically declared
local tools are merged in: the list is exactly the remote catalogue. -/
theorem process_query_tools_assembled_once
    (list_tools : List MCPTool)
    (model : List Message → List AnthropicTool → Except String ModelResponse)
    (call_tool : String → String → Except String (List RContent))
    (query : String) :
    (process_query list_tools model call_tool query).list_tools_calls = 1 ∧
    ∀ c ∈ (process_query list_tools model call_tool query).modelCalls,
      c.tools = list_tools.map toAnthropicTool := by
  exact ⟨rfl, fun c hc =>
    tool_use_loop_tools_fixed model call_tool (list_tools.map toAnthropicTool)
      MAX_TURNS (initial_messages query) c hc⟩

/-- Witness for C4's amended theorem at a concrete run. -/
theorem process_query_tools_assembled_once_witness :
    (process_query [⟨"search", "d", "s"⟩]
      (fun _ _ => Except.ok ⟨[ContentBlock.text "hi"], "end_turn"⟩)
      (fun _ _ => Except.ok []) "x").list_tools_calls = 1 ∧
    (ModelCall.mk (initial_messages "x")
        ([⟨"search", "d", "s"⟩].map toAnthropicTool)).tools =
      [(⟨"search", "d", "s"⟩ : MCPTool)].map toAnthropicTool :=
  ⟨(process_query_tools_assembled_once [⟨"search", "d", "s"⟩]
      (fun _ _ => Except.ok ⟨[ContentBlock.text "hi"], "end_turn"⟩)
      (fun _ _ => Except.ok []) "x").1,
   (process_query_tools_assembled_once [⟨"search", "d", "s"⟩]
      (fun _ _ => Except.ok ⟨[ContentBlock.text "hi"], "end_turn"⟩)
      (fun _ _ => Except.ok []) "x").2 _ (by decide)⟩

/-- C4 (counterexample to the claim as stated): with an empty remote
catalogue, the tool list handed to the model by `process_query` is empty,
whereas the merge of the remote catalogue with the spec's statically
declared local tools is not: the code merges no local tools. -/
theorem process_query_no_local_tools_merged :
    (process_query []
      (fun _ _ => Except.ok ⟨[ContentBlock.text "hi"], "end_turn"⟩)
      (fun _ _ => Except.ok []) "hello").modelCalls.map ModelCall.tools = [[]] ∧
    ([].map toAnthropicTool ++ local_tools_spec ≠ ([] : List AnthropicTool)) := by
  constructor
  · decide
  · decide

/-- The loop only ever appends to the transcript it is given. -/
theorem tool_use_loop_transcript_extends
    (model : List Message → List AnthropicTool → Except String ModelResponse)
    (call_tool : String → String → Except String (List RContent))
    (tools : List AnthropicTool) :
    ∀ fuel messages,
      ∃ tail, messages ++ tail = (tool_use_loop model call_tool tools fuel messages).transcript := by
  intro fuel
  induction fuel with
  | zero =>
    intro messages
    exact ⟨[], by simp [tool_use_loop]⟩
  | succ n ih =>
    intro messages
    rw [tool_use_loop]
    cases hm : model messages tools with
    | error e =>
      exact ⟨[], by simp⟩
    | ok response =>
      dsimp only
      by_cases hs : response.stop_reason ≠ "tool_use"
      · rw [if_pos hs]
        exact ⟨[⟨"assistant", MessageContent.blocks response.content⟩], rfl⟩
      · rw [if_neg hs]
        dsimp only
        obtain ⟨tail, htail⟩ := ih (messages ++
          [(⟨"assistant", MessageContent.blocks response.content⟩ : Message)] ++
          [(⟨"user", MessageContent.tool_results_content
              (tool_results_for call_tool response.content)⟩ : Message)])
        refine ⟨[(⟨"assistant", MessageContent.blocks response.content⟩ : Message)] ++
          [(⟨"user", MessageContent.tool_results_content
              (tool_results_for call_tool response.content)⟩ : Message)] ++ tail, ?_⟩
        rw [← htail]
        simp

/-- C5 (amended): the transcript does not persist across `process_query`
invocations; each call builds a fresh `messages` list whose initial turns
are exactly the optional Gmail system-context turn followed by the new
user query (client.py lines 60-76), and the call only ever appends to
it: the final transcript extends the fresh initial turns. -/
theorem process_query_transcript_fresh
    (list_tools : List MCPTool)
    (model : List Message → List AnthropicTool → Except String ModelResponse)
    (call_tool : String → String → Except String (List RContent))
    (query : String) :
    ∃ tail, initial_messages query ++ tail =
      (process_query list_tools model call_tool query).transcript :=
  tool_use_loop_transcript_extends model call_tool (list_tools.map toAnthropicTool)
    MAX_TURNS (initial_messages query)

/-- C5 (counterexample to the claim as stated): a second `process_query`
call in the same session does not start from the transcript accumulated
by the first call — the first call's user turn is absent from the second
call's transcript. -/
theorem process_query_transcript_not_persistent :
    (⟨"user", MessageContent.text "first question"⟩ : Message) ∈
      (process_query []
        (fun _ _ => Except.ok ⟨[ContentBlock.text "answer"], "end_turn"⟩)
        (fun _ _ => Except.ok []) "first question").transcript ∧
    (⟨"user", MessageContent.text "first question"⟩ : Message) ∉
      (process_query []
        (fun _ _ => Except.ok ⟨[ContentBlock.text "answer"], "end_turn"⟩)
        (fun _ _ => Except.ok []) "second question").transcript := by
  constructor
  · decide
  · decide

/-- Running the pagination loop from a consistent intermediate state
(the accumulator holds exactly the first `offset` listed ids) and enough
fuel yields, after the final cap truncation, exactly the first
`max_results` listed ids. -/
theorem gmail_search_go_take (s : GmailServer) (max_results : Nat) (hcap : 1 ≤ s.page_cap) :
    ∀ fuel offset, offset ≤ s.msgs.length → max_results - offset ≤ fuel →
      (gmail_search_go s max_results fuel (s.msgs.take offset) offset).take max_results
        = s.msgs.take max_results := by
  intro fuel
  induction fuel with
  | zero =>
    intro offset hoff hfuel
    rw [gmail_search_go, List.take_take]
    congr 1
    omega
  | succ n ih =>
    intro offset hoff hfuel
    rw [gmail_search_go]
    have hlen : (s.msgs.take offset).length = offset := by
      rw [List.length_take]
      omega
    by_cases hoffmax : offset < max_results
    · rw [if_pos (by rw [hlen]; exact hoffmax)]
      simp only [gmail_list_page]
      rw [hlen]
      generalize hkdef : 500 ⊓ (max_results - offset) ⊓ s.page_cap = k
      have hk1 : 1 ≤ k := by omega
      have hpage : (List.take k (List.drop offset s.msgs)).length
          = min k (s.msgs.length - offset) := by
        simp [List.length_take, List.length_drop]
      have happend : List.take offset s.msgs ++ List.take k (List.drop offset s.msgs)
          = List.take (offset + k) s.msgs := (List.take_add s.msgs offset k).symm
      by_cases hnext : offset + (List.take k (List.drop offset s.msgs)).length < s.msgs.length
      · rw [if_pos hnext]
        dsimp only
        by_cases hfull : max_results ≤
            (List.take offset s.msgs ++ List.take k (List.drop offset s.msgs)).length
        · rw [if_pos hfull]
          rw [happend, List.take_take]
          rw [happend, List.length_take] at hfull
          congr 1
          omega
        · rw [if_neg hfull]
          have hpk : (List.take k (List.drop offset s.msgs)).length = k := by omega
          rw [happend, hpk]
          have hoff2 : offset + k ≤ s.msgs.length := by omega
          have hfuel2 : max_results - (offset + k) ≤ n := by omega
          exact ih (offset + k) hoff2 hfuel2
      · rw [if_neg hnext]
        rw [happend]
        rw [List.take_of_length_le (by omega : s.msgs.length ≤ offset + k)]
    · rw [if_neg (by rw [hlen]; exact hoffmax)]
      rw [List.take_take]
      congr 1
      omega

/-- C9: Gmail search pagination pages through the match list until the
cap is reached: with the server's newest-first listing and any positive
per-page allotment, a query matching 650 messages under the cap of 100
returns exactly the first 100 listed (most recent) message ids, and a
query matching fewer messages than the cap returns all of them
(gmail_processor/main.py lines 176-202). -/
theorem gmail_search_pagination (s : GmailServer) (hcap : 1 ≤ s.page_cap) :
    (s.msgs.length = 650 →
      gmail_search_messages s gmail_max_results = s.msgs.take 100 ∧
      (gmail_search_messages s gmail_max_results).length = 100) ∧
    (s.msgs.length < 100 → gmail_search_messages s gmail_max_results = s.msgs) := by
  have hmain : gmail_search_messages s gmail_max_results = s.msgs.take 100 := by
    have h0 := gmail_search_go_take s 100 hcap 100 0 (Nat.zero_le _) (by omega)
    simpa [gmail_search_messages, gmail_max_results] using h0
  refine ⟨fun h650 => ⟨hmain, ?_⟩, fun hlt => ?_⟩
  · rw [hmain, List.length_take]
    omega
  · rw [hmain, List.take_of_length_le (by omega)]

set_option maxRecDepth 4000 in
/-- Witness for C9: a 650-message listing under the cap, and a
3-message listing below the cap. -/
theorem gmail_search_pagination_witness :
    (gmail_search_messages ⟨(List.range 650).map toString, 500⟩ gmail_max_results
        = ((List.range 650).map toString).take 100 ∧
     (gmail_search_messages ⟨(List.range 650).map toString, 500⟩ gmail_max_results).length
        = 100) ∧
    gmail_search_messages ⟨["a", "b", "c"], 500⟩ gmail_max_results = ["a", "b", "c"] :=
  ⟨(gmail_search_pagination ⟨(List.range 650).map toString, 500⟩
      (show (1 : Nat) ≤ 500 by norm_num)).1 (by simp),
   (gmail_search_pagination ⟨["a", "b", "c"], 500⟩
      (show (1 : Nat) ≤ 500 by norm_num)).2 (by norm_num)⟩

/-- A part passing the source's filter has a target MIME type and a
non-empty attachment id. -/
theorem part_matches_spec (p : MsgPart) (target_mimes : List String)
    (h : part_matches p target_mimes = true) :
    (∃ m, p.mimeType = some m ∧ m ∈ target_mimes) ∧
    (∃ b att, p.body = some b ∧ b.attachmentId = some att ∧ att ≠ "") := by
  obtain ⟨m, bo, ch⟩ := p
  unfold part_matches at h
  rw [Bool.and_eq_true] at h
  obtain ⟨h1, h2⟩ := h
  constructor
  · cases m with
    | none => simp [MsgPart.mimeType] at h1
    | some mm =>
      simp [MsgPart.mimeType] at h1
      exact ⟨mm, rfl, h1⟩
  · cases bo with
    | none => simp [MsgPart.body] at h2
    | some bb =>
      obtain ⟨attOpt⟩ := bb
      cases attOpt with
      | none => simp [MsgPart.body, PartBody.attachmentId] at h2
      | some att =>
        simp [MsgPart.body, PartBody.attachmentId] at h2
        exact ⟨⟨some att⟩, att, rfl, rfl, h2⟩

/-- C10: every element of `find_mime_parts parts target_mimes`,
including elements found in recursively nested multipart structures,
has a MIME type belonging to `target_mimes` and a non-empty body
attachment id; a part whose MIME type matches but lacks an attachment
id is never included (gmail_processor/main.py lines 56-73). -/
theorem find_mime_parts_sound (parts : List MsgPart) (target_mimes : List String)
    (q : MsgPart) (hq : q ∈ find_mime_parts parts target_mimes) :
    (∃ m, q.mimeType = some m ∧ m ∈ target_mimes) ∧
    (∃ b att, q.body = some b ∧ b.attachmentId = some att ∧ att ≠ "") := by
  induction parts, target_mimes using find_mime_parts.induct with
  | case1 tm =>
    simp [find_mime_parts] at hq
  | case2 m b children rest tm ih1 ih2 =>
    rw [find_mime_parts] at hq
    rcases List.mem_append.mp hq with hq1 | hq2
    · rcases List.mem_append.mp hq1 with hq3 | hq4
      · by_cases hc : part_matches (MsgPart.mk m b children) tm
        · rw [if_pos hc] at hq3
          rcases List.mem_singleton.mp hq3 with rfl
          exact part_matches_spec _ tm hc
        · rw [if_neg hc] at hq3
          simp at hq3
      · exact ih1 hq4
    · exact ih2 hq2

/-- Witness for C10: a PDF part with an attachment id nested inside a
multipart container is returned, and the theorem yields its
properties; the sibling PDF part without a body is not in the result. -/
theorem find_mime_parts_sound_witness :
    (∃ m, (MsgPart.mk (some "application/pdf") (some ⟨some "att-1"⟩) []).mimeType
        = some m ∧ m ∈ ["application/pdf"]) ∧
    (∃ b att, (MsgPart.mk (some "application/pdf") (some ⟨some "att-1"⟩) []).body
        = some b ∧ b.attachmentId = some att ∧ att ≠ "") :=
  find_mime_parts_sound
    [MsgPart.mk (some "multipart/mixed") none
      [MsgPart.mk (some "application/pdf") (some ⟨some "att-1"⟩) [],
       MsgPart.mk (some "application/pdf") none []]]
    ["application/pdf"]
    (MsgPart.mk (some "application/pdf") (some ⟨some "att-1"⟩) [])
    (by simp [find_mime_parts, part_matches, MsgPart.mimeType, MsgPart.body,
      PartBody.attachmentId])
